import Mathlib

/-
Verification of the command-dispatch engine of the line.py bot framework.

The definitions below are a shallow embedding of `src/line/bot.py` (the live
`BaseBot`/`Bot` implementation, together with `src/line/context.py`,
`src/line/exceptions.py`) and, where a claim cites it, of the legacy
`src/line/base.py`.  Python strings are Lean `String`s, Python dicts over
string keys are association lists with in-place update, Python exceptions are
an explicit error type threaded through `Except`/`Option`.
-/

set_option autoImplicit false

namespace LinePy

/-- Python exceptions raised by the embedded code (`src/line/exceptions.py`
plus the builtin exceptions the dispatch code can raise).  `CogLoadError`
accepts either a string or an exception as its cause, mirrored by the two
constructors `cogLoadErrorMsg` and `cogLoadErrorExc`.  Message texts are
abbreviated. -/
inductive PyErr where
  | typeError (msg : String)
  | keyError (key : String)
  | valueError (msg : String)
  | attributeError (msg : String)
  | importError (msg : String)
  | intConvertError (pname : String) (value : String)
  | floatConvertError (pname : String) (value : String)
  | paramParseError (cmd : String) (cause : PyErr)
  | commandExecError (cmd : String) (cause : PyErr)
  | cogLoadErrorMsg (ref : String) (msg : String)
  | cogLoadErrorExc (ref : String) (cause : PyErr)
  | userError (msg : String)
  deriving DecidableEq, Repr

/-- `isinstance(e, CogLoadError)`. -/
def PyErr.isCogLoad : PyErr → Bool
  | .cogLoadErrorMsg _ _ => true
  | .cogLoadErrorExc _ _ => true
  | _ => false

/-- Result of `float(x)`: the conversion source, kept symbolically (no claim
inspects the numeric value of a Python float). -/
inductive FloatV where
  | ofStr (s : String)
  | ofInt (n : Int)
  | ofBool (b : Bool)
  deriving DecidableEq, Repr

/-- A Python runtime value as it occurs in the dispatch pipeline: `None`,
`str`, `int`, `bool` or `float`. -/
inductive PyVal where
  | none
  | str (s : String)
  | int (n : Int)
  | bool (b : Bool)
  | float (f : FloatV)
  deriving DecidableEq, Repr

/-- `type(v).__name__`, used in AttributeError messages. -/
def pyTypeName : PyVal → String
  | .none => "NoneType"
  | .str _ => "str"
  | .int _ => "int"
  | .bool _ => "bool"
  | .float _ => "float"

/-- `d.get(k)` / `d[k]` on a Python dict modelled as an association list in
insertion order. -/
def dictGet {α : Type} : List (String × α) → String → Option α
  | [], _ => Option.none
  | (k, v) :: rest, key => if k = key then some v else dictGet rest key

/-- `d[k] = v` on a Python dict: update in place if the key exists, append
otherwise. -/
def dictSet {α : Type} : List (String × α) → String → α → List (String × α)
  | [], k, v => [(k, v)]
  | (k0, v0) :: rest, k, v =>
    if k0 = k then (k0, v) :: rest else (k0, v0) :: dictSet rest k v

/-- `s.split(sep)` for a one-character separator (the code only splits on
`"&"` and `"="`), accumulator form. -/
def splitCharAux (sep : Char) : List Char → List Char → List String
  | [], acc => [String.mk acc.reverse]
  | c :: cs, acc =>
    if c = sep then String.mk acc.reverse :: splitCharAux sep cs []
    else splitCharAux sep cs (c :: acc)

/-- Python `s.split(sep)` for a one-character separator: `"".split` is
`[""]`, adjacent separators produce empty segments. -/
def splitChar (sep : Char) (s : String) : List String :=
  splitCharAux sep s.data []

/-- Python `sep.join(parts)` for a one-character separator. -/
def joinWith (sep : Char) : List String → String
  | [] => ""
  | [x] => x
  | x :: xs => x ++ String.singleton sep ++ joinWith sep xs

/-- ASCII lower-casing of one character; Python `str.lower` restricted to the
ASCII range (every string literal the code compares against is ASCII). -/
def lowerChar (c : Char) : Char :=
  if 'A' ≤ c ∧ c ≤ 'Z' then Char.ofNat (c.toNat + 32) else c

/-- Python `s.lower()` over the ASCII repertoire. -/
def lowerAscii (s : String) : String :=
  String.mk (s.data.map lowerChar)

/-- Characters accepted by Python `str.isdigit`: any character whose Unicode
`Numeric_Type` is `Decimal` or `Digit`.  The repertoire modelled here is the
ASCII digits (Decimal) together with the superscript digits U+00B9, U+00B2,
U+00B3, which per UnicodeData have `Numeric_Type=Digit` but no decimal digit
value; digits of other scripts do not occur in this development. -/
def pyCharIsDigit (c : Char) : Bool :=
  ('0' ≤ c && c ≤ '9') || c = '¹' || c = '²' || c = '³'

/-- The decimal digit value of a character as used by `int(str)`, i.e. the
Unicode decimal-digit (`Numeric_Type=Decimal`) value; superscript digits have
none, which is exactly why `int` rejects strings that `str.isdigit` accepts. -/
def pyCharDecimalVal (c : Char) : Option Nat :=
  if '0' ≤ c && c ≤ '9' then some (c.toNat - 48) else Option.none

/-- Python `s.isdigit()`: non-empty and every character is a digit. -/
def pyIsDigit (s : String) : Bool :=
  !s.data.isEmpty && s.data.all pyCharIsDigit

/-- Accumulate the decimal value of a digit sequence; `Option.none` when some
character has no decimal digit value. -/
def digitsToNatAux : List Char → Nat → Option Nat
  | [], acc => some acc
  | c :: cs, acc =>
    match pyCharDecimalVal c with
    | some d => digitsToNatAux cs (acc * 10 + d)
    | Option.none => Option.none

/-- Python `int(s)` on a string: an optional ASCII sign followed by one or
more decimal digits (whitespace stripping and underscore separators are not
exercised here because every call site is guarded by `isdigit`).  Characters
that are digits without a decimal value (e.g. the superscripts) make `int`
raise `ValueError`. -/
def pyIntParse (s : String) : Except PyErr Int :=
  let fail : Except PyErr Int :=
    .error (.valueError ("invalid literal for int with base 10: " ++ s))
  match s.data with
  | [] => fail
  | c :: rest =>
    let signed : Bool × List Char :=
      if c = '-' then (true, rest)
      else if c = '+' then (false, rest) else (false, s.data)
    match signed.2 with
    | [] => fail
    | ds =>
      match digitsToNatAux ds 0 with
      | some n => .ok (if signed.1 then -(n : Int) else (n : Int))
      | Option.none => fail

/-- Strip leading and trailing whitespace (Python `float` strips before
parsing). -/
def isPyWs (c : Char) : Bool :=
  c = ' ' || c = '\t' || c = '\n' || c = '\r'

/-- Decimal digit run: non-empty, all ASCII digits. -/
def allAsciiDigits (s : String) : Bool :=
  !s.data.isEmpty && s.data.all (fun c => '0' ≤ c && c ≤ '9')

/-- The mantissa part of a float literal: digits with at most one point and
at least one digit overall. -/
def floatMantissaOk (m : String) : Bool :=
  match splitChar '.' m with
  | [a] => allAsciiDigits a
  | [a, b] =>
    (a.data ++ b.data).all (fun c => '0' ≤ c && c ≤ '9') && !(a = "" && b = "")
  | _ => false

/-- The exponent part of a float literal: optional sign then digits. -/
def floatExpOk (x : String) : Bool :=
  match x.data with
  | '+' :: r => allAsciiDigits (String.mk r)
  | '-' :: r => allAsciiDigits (String.mk r)
  | _ => allAsciiDigits x

/-- Whether Python `float(s)` accepts the string `s` (ASCII grammar: optional
sign, then `inf`/`infinity`/`nan` or a mantissa with optional exponent). -/
def pyFloatOk (s : String) : Bool :=
  let t := lowerAscii (String.mk ((s.data.dropWhile isPyWs).reverse.dropWhile isPyWs).reverse)
  let core :=
    match t.data with
    | '+' :: r => String.mk r
    | '-' :: r => String.mk r
    | _ => t
  core = "inf" || core = "infinity" || core = "nan" ||
    (match splitChar 'e' core with
     | [m] => floatMantissaOk m
     | [m, x] => floatMantissaOk m && floatExpOk x
     | _ => false)

/-- The parameter-string dictionary built by `BaseBot._parse_data`
(bot.py lines 84-106): keys map to a string or to Python `None`. -/
abbrev PDict := List (String × Option String)

/-- The body of the `for param in params` loop of `BaseBot._parse_data`:
split the segment on `"="`; segments with fewer than two parts are skipped;
re-join the tail on `"="`; an empty value is skipped; the literal value
`"None"` is stored as Python `None`. -/
def processSegment (d : PDict) (param : String) : PDict :=
  match splitChar '=' param with
  | key :: v0 :: vs =>
    let value := joinWith '=' (v0 :: vs)
    if value = "" then d
    else if value = "None" then dictSet d key Option.none
    else dictSet d key (some value)
  | _ => d

/-- `BaseBot._parse_data` (bot.py lines 84-106): an empty parameter string
yields an empty dict; otherwise split on `"&"` and process each segment. -/
def parseData (s : String) : PDict :=
  if s = "" then [] else (splitChar '&' s).foldl processSegment []

/-- The `ParamType` enum of bot.py. -/
inductive ParamType where
  | INTEGER
  | FLOAT
  | STRING
  | BOOLEAN
  | UNKNOWN
  deriving DecidableEq, Repr

/-- `BaseBot.__get_param_type` (bot.py lines 108-130).  Every cog module in
this repository uses `from __future__ import annotations`, so the entries of
`__annotations__` passed in by `process_command` are the literal annotation
strings, and the function compares them against `"int"`, `"bool"`, `"float"`,
`"str"`; `typing.get_origin` of a string is `None`, so the Optional/Union
unwrapping branch never fires for these inputs. -/
def getParamType (ann : String) : ParamType :=
  if ann = "int" then .INTEGER
  else if ann = "bool" then .BOOLEAN
  else if ann = "float" then .FLOAT
  else if ann = "str" then .STRING
  else .UNKNOWN

/-- The `inspect.Parameter.kind` values relevant to `_parse_params`. -/
inductive PKind where
  | posOnly
  | posOrKw
  | kwOnly
  | varPos
  | varKw
  deriving DecidableEq, Repr

/-- One entry of `inspect.signature(fn).parameters`: the name, the declared
default (`Option.none` models `inspect.Parameter.empty`) and the kind. -/
structure PyParam where
  name : String
  default : Option PyVal
  kind : PKind
  deriving DecidableEq, Repr

/-- Annotation dictionary `fn.__annotations__` (PEP 563 strings). -/
abbrev AnnDict := List (String × String)

/-- `default = None if param.default == empty else param.default;
value = data.get(param.name, default)` (bot.py lines 144-145). -/
def resolveValue (p : PyParam) (data : PDict) : PyVal :=
  match dictGet data p.name with
  | some (some s) => .str s
  | some Option.none => .none
  | Option.none =>
    match p.default with
    | some v => v
    | Option.none => .none

/-- The coercion step of `BaseBot._parse_params` for one parameter
(bot.py lines 147-163): nothing is done to a `None` value; otherwise the
parameter type is looked up in `__annotations__` (a missing entry raises
`KeyError`) and the value is converted.  Integer: `value.isdigit()` (an
`AttributeError` on non-strings) guards `IntConvertError`, then `int(value)`
(which can itself raise `ValueError`).  Float: `float(value)` with only
`ValueError` converted to `FloatConvertError`.  Boolean: `value.lower()`
compared to `"true"`/`"false"`, any other string is left as is.  String and
unknown annotations pass the value through. -/
def coerceValue (pname : String) (annots : AnnDict) (v : PyVal) : Except PyErr PyVal :=
  if v = .none then .ok v
  else
    match dictGet annots pname with
    | Option.none => .error (.keyError pname)
    | some ann =>
      match getParamType ann with
      | .INTEGER =>
        match v with
        | .str s =>
          if pyIsDigit s then (pyIntParse s).map PyVal.int
          else .error (.intConvertError pname s)
        | _ => .error (.attributeError (pyTypeName v ++ " object has no attribute isdigit"))
      | .FLOAT =>
        match v with
        | .str s =>
          if pyFloatOk s then .ok (.float (.ofStr s))
          else .error (.floatConvertError pname s)
        | .int n => .ok (.float (.ofInt n))
        | .bool b => .ok (.float (.ofBool b))
        | .float f => .ok (.float f)
        | .none => .error (.typeError "float argument must be a string or a number")
      | .BOOLEAN =>
        match v with
        | .str s =>
          if lowerAscii s = "true" then .ok (.bool true)
          else if lowerAscii s = "false" then .ok (.bool false)
          else .ok (.str s)
        | _ => .error (.attributeError (pyTypeName v ++ " object has no attribute lower"))
      | .STRING => .ok v
      | .UNKNOWN => .ok v

/-- Keyword-argument dictionary built by `_parse_params`. -/
abbrev KwDict := List (String × PyVal)

/-- The parameter loop of `BaseBot._parse_params` (bot.py lines 140-170):
resolve and coerce each parameter, then place it into `kwargs` when its kind
is positional-or-keyword or keyword-only and into `args` otherwise. -/
def parseParamsAux (data : PDict) (annots : AnnDict) :
    List PyParam → List PyVal → KwDict → Except PyErr (List PyVal × KwDict)
  | [], args, kwargs => .ok (args, kwargs)
  | p :: rest, args, kwargs =>
    match coerceValue p.name annots (resolveValue p data) with
    | .error e => .error e
    | .ok v =>
      if p.kind = .posOrKw || p.kind = .kwOnly then
        parseParamsAux data annots rest args (dictSet kwargs p.name v)
      else
        parseParamsAux data annots rest (args ++ [v]) kwargs

/-- `BaseBot._parse_params` (bot.py lines 133-172): iterate over
`list(params.values())[2:]`, i.e. every declared parameter beyond the two
implicit leading ones (`self` and the context). -/
def parseParams (params : List PyParam) (data : PDict) (annots : AnnDict) :
    Except PyErr (List PyVal × KwDict) :=
  parseParamsAux data annots (params.drop 2) [] []

/-- The event source (`linebot` `Source`): a user id plus the optional
group/room identifiers read with `getattr(source, ..., None)`. -/
structure Source where
  user_id : String
  group_id : Option String
  room_id : Option String
  deriving DecidableEq, Repr

/-- The execution context of `src/line/context.py`: `Context.__init__`
(context.py lines 23-28) stores `user_id`, `api` and `reply_token`.  The
`api` handle and the reply helpers are outbound collaborators and are not
modelled. -/
structure Ctx where
  user_id : String
  reply_token : Option String
  deriving DecidableEq, Repr

/-- The keyword parameters accepted by `Context.__init__`
(context.py line 24): `user_id`, `api`, `reply_token` (all keyword-only). -/
def contextInitKeywords : List String := ["user_id", "api", "reply_token"]

/-- The keyword arguments `BaseBot.process_command` passes to `Context`
(bot.py lines 281-289). -/
def processCommandCallKeywords : List String :=
  ["user_id", "api", "reply_token", "group_id", "room_id"]

/-- The first keyword of a call that the callee does not declare, if any;
Python raises `TypeError` for it. -/
def unexpectedKeyword (accepted passed : List String) : Option String :=
  passed.find? (fun k => !(accepted.contains k))

/-- The `Context(...)` construction performed by `BaseBot.process_command`
(bot.py lines 282-289) against `Context.__init__` (context.py lines 23-28):
Python binds the call keywords against the declared keyword-only parameters
and raises `TypeError` on an unexpected keyword argument. -/
def mkContext (source : Source) (reply_token : String) : Except PyErr Ctx :=
  match unexpectedKeyword contextInitKeywords processCommandCallKeywords with
  | some k => .error (.typeError ("init got an unexpected keyword argument " ++ k))
  | Option.none => .ok { user_id := source.user_id, reply_token := some reply_token }

/-- A command stored in a cog's command map: the original function's
signature (including the two implicit leading parameters), its
`__annotations__`, and the handler body, which may raise. -/
structure PyFunc where
  params : List PyParam
  annots : AnnDict
  behavior : Ctx → List PyVal → KwDict → Except PyErr Unit

/-- A cog: its `commands` dictionary (command name to bound handler). -/
structure Cog where
  commands : List (String × PyFunc)

/-- `cog.commands.get(cmd)` followed by the `if func:` truthiness test. -/
def cogDefines (cog : Cog) (c : String) : Bool :=
  (dictGet cog.commands c).isSome

/-- A record of one handler invocation: which cog (by registration index)
and which command ran.  The embedding returns the invocation trace so that
"no handler was invoked" is an observable statement. -/
structure Invocation where
  cogIdx : Nat
  cmd : String
  deriving DecidableEq, Repr

/-- Outcome of dispatching one event: the handler invocations that happened
and the exception that escaped, if any. -/
structure DispatchResult where
  invs : List Invocation
  err : Option PyErr
  deriving Repr

/-- The `for cog in self.cogs` loop of `BaseBot.process_command`
(bot.py lines 295-314), with `idx` the registration index of the first cog
still to be scanned: the first cog whose command map contains `cmd` wins;
its parameters are parsed (any exception becoming `ParamParseError(cmd, e)`),
the handler is invoked (any exception becoming `CommandExecError(cmd, e)`),
and the loop breaks. -/
def runLoopAux (c : String) (data : PDict) (ctx : Ctx) :
    List Cog → Nat → DispatchResult
  | [], _ => { invs := [], err := Option.none }
  | cog :: rest, idx =>
    match dictGet cog.commands c with
    | Option.none => runLoopAux c data ctx rest (idx + 1)
    | some f =>
      match parseParams f.params data f.annots with
      | .error e => { invs := [], err := some (.paramParseError c e) }
      | .ok (args, kwargs) =>
        match f.behavior ctx args kwargs with
        | .error e => { invs := [⟨idx, c⟩], err := some (.commandExecError c e) }
        | .ok _ => { invs := [⟨idx, c⟩], err := Option.none }

/-- `BaseBot.process_command` after the context has been built
(bot.py lines 291-314): read `data.get("cmd")`; `if not cmd` (absent, `None`
or empty) the event is a no-op; otherwise scan the cogs. -/
def processCommandRest (cogs : List Cog) (data : PDict) (ctx : Ctx) : DispatchResult :=
  let cmd : Option String :=
    match dictGet data "cmd" with
    | some v => v
    | Option.none => Option.none
  match cmd with
  | Option.none => { invs := [], err := Option.none }
  | some c =>
    if c = "" then { invs := [], err := Option.none }
    else runLoopAux c data ctx cogs 0

/-- `BaseBot.process_command` (bot.py lines 267-314): parse the text, build
the `Context` (which raises `TypeError`, see `mkContext`), then check `cmd`
and scan the cogs. -/
def processCommand (cogs : List Cog) (text : String) (source : Source)
    (reply_token : String) : DispatchResult :=
  let data := parseData text
  match mkContext source reply_token with
  | .error e => { invs := [], err := some e }
  | .ok ctx => processCommandRest cogs data ctx

/-- A platform event as classified by `_handle_request` (bot.py lines
183-194): postback, message (with its text payload), follow, unfollow, or an
unsupported variant. -/
inductive Event where
  | postback (data : String) (source : Option Source) (reply_token : String)
  | message (text : String) (source : Option Source) (reply_token : String)
  | follow
  | unfollow
  | other
  deriving DecidableEq, Repr

/-- One iteration of the event loop of `_handle_request`: `on_postback` and
`on_message` (bot.py lines 203-247) raise `ValueError` on a `None` source
and otherwise call `process_command`; follow/unfollow go to the no-op hooks;
unsupported events are logged and skipped. -/
def handleEvent (cogs : List Cog) : Event → DispatchResult
  | .postback d src tok =>
    match src with
    | Option.none => { invs := [], err := some (.valueError "Event source is None") }
    | some s => processCommand cogs d s tok
  | .message t src tok =>
    match src with
    | Option.none => { invs := [], err := some (.valueError "Event source is None") }
    | some s => processCommand cogs t s tok
  | .follow => { invs := [], err := Option.none }
  | .unfollow => { invs := [], err := Option.none }
  | .other => { invs := [], err := Option.none }

/-- What `self.webhook_parser.parse(body, signature)` can do: raise
`InvalidSignatureError`, raise some other exception, or return the event
list.  The verification itself lives in the external `linebot` library, so
the parser is a parameter of the embedded request handler. -/
inductive ParseOutcome where
  | invalidSignature
  | raised (e : PyErr)
  | events (evs : List Event)

/-- An inbound HTTP request: its headers and body. -/
structure Request where
  headers : List (String × String)
  body : String

/-- `request.headers[name]`: aiohttp header lookup is case-insensitive;
`Option.none` models the `KeyError` raised for a missing header. -/
def lookupHeader (hs : List (String × String)) (name : String) : Option String :=
  (hs.find? (fun h => lowerAscii h.1 = lowerAscii name)).map (fun h => h.2)

/-- The outcome of `_handle_request`: HTTP status and body, the handler
invocations performed, and the exception delivered to the `on_error` hook by
the outer fault boundary, if any. -/
structure ReqResult where
  status : Nat
  body : String
  invs : List Invocation
  hookErr : Option PyErr
  deriving Repr

/-- The `for event in events` loop of `_handle_request` together with the
outer fault boundary (bot.py lines 183-201): events are processed in order;
the first escaping exception goes to `on_error` and turns the whole request
into a 500; otherwise the request returns 200 `"OK"`. -/
def processEvents (cogs : List Cog) : List Event → List Invocation → ReqResult
  | [], acc => { status := 200, body := "OK", invs := acc, hookErr := Option.none }
  | ev :: rest, acc =>
    let r := handleEvent cogs ev
    match r.err with
    | some e =>
      { status := 500, body := "Internal server error", invs := acc ++ r.invs, hookErr := some e }
    | Option.none => processEvents cogs rest (acc ++ r.invs)

/-- `BaseBot._handle_request` (bot.py lines 174-201): read the
`X-Line-Signature` header (`KeyError` when missing goes to the outer fault
boundary), run the webhook parser (an `InvalidSignatureError` short-circuits
with a 400 response), then process the events. -/
def handleRequest (parse : String → String → ParseOutcome) (cogs : List Cog)
    (req : Request) : ReqResult :=
  match lookupHeader req.headers "X-Line-Signature" with
  | Option.none =>
    { status := 500, body := "Internal server error", invs := [],
      hookErr := some (.keyError "X-Line-Signature") }
  | some sig =>
    match parse req.body sig with
    | .invalidSignature =>
      { status := 400, body := "Invalid signature", invs := [], hookErr := Option.none }
    | .raised e =>
      { status := 500, body := "Internal server error", invs := [], hookErr := some e }
    | .events evs => processEvents cogs evs []

/-- A class found in an imported module: whether `issubclass(cls, Cog)`,
whether it is the `Cog` base itself, and whether instantiating it raises. -/
structure PyClass where
  id : Nat
  isCogSub : Bool
  isCogBase : Bool
  initErr : Option PyErr
  deriving DecidableEq, Repr

/-- What `importlib.import_module` yields for a path: an exception or a
module with its `inspect.getmembers(module, inspect.isclass)` list. -/
inductive ImportRes where
  | failed (e : PyErr)
  | mod (classes : List (String × PyClass))
  deriving DecidableEq, Repr

/-- The import environment: which module each path resolves to. -/
abbrev ModuleEnv := List (String × ImportRes)

/-- The body of the `try:` block shared by both `add_cog` implementations
(bot.py lines 422-439, base.py lines 296-312) for a path reference: import
the module, keep the classes that are subclasses of `Cog` and not `Cog`
itself; zero matches and more than one match raise `CogLoadError` with the
two distinguishing messages, otherwise the single class is instantiated
(which may itself raise).  The result is the id of the appended cog. -/
def addCogTry (env : ModuleEnv) (path : String) : Except PyErr Nat :=
  match dictGet env path with
  | Option.none => .error (.importError ("No module named " ++ path))
  | some (.failed e) => .error e
  | some (.mod classes) =>
    let qual := classes.filter (fun c => c.2.isCogSub && !c.2.isCogBase)
    match qual with
    | [] => .error (.cogLoadErrorMsg path "No Cog subclass found")
    | [c] =>
      match c.2.initErr with
      | some e => .error e
      | Option.none => .ok c.2.id
    | _ => .error (.cogLoadErrorMsg path "Multiple Cog subclasses found")

/-- `BaseBot.add_cog` (bot.py lines 414-443): `except CogLoadError: raise`
propagates a `CogLoadError` unwrapped; any other exception is wrapped as
`CogLoadError(path_or_class, e)`. -/
def addCogBot (env : ModuleEnv) (path : String) : Except PyErr Nat :=
  match addCogTry env path with
  | .ok v => .ok v
  | .error e => if e.isCogLoad then .error e else .error (.cogLoadErrorExc path e)

/-- Legacy `Bot.add_cog` (base.py lines 281-314): the single blanket
`except Exception` wraps every exception — including the `CogLoadError` the
body itself just raised — in a new `CogLoadError`. -/
def addCogBase (env : ModuleEnv) (path : String) : Except PyErr Nat :=
  match addCogTry env path with
  | .ok v => .ok v
  | .error e => .error (.cogLoadErrorExc path e)

/-- ASCII character predicate, used to delimit the repertoire on which the
`isdigit` model is exact. -/
def isAsciiChar (c : Char) : Bool :=
  c.toNat < 128

/-- The decimal reading of an ASCII digit string: the integer a value
matching the regex `^[0-9]+$` denotes. -/
def asciiDigitsToNat (s : String) : Nat :=
  s.data.foldl (fun a c => a * 10 + (c.toNat - 48)) 0

/-- The first implicit handler parameter (the bound `self`). -/
def pSelfParam : PyParam := { name := "self", default := Option.none, kind := .posOrKw }

/-- The second implicit handler parameter (the execution context). -/
def pCtxParam : PyParam := { name := "ctx", default := Option.none, kind := .posOrKw }

/-- A concrete event source used in closed evaluations. -/
def srcEx : Source := { user_id := "U1", group_id := Option.none, room_id := Option.none }

/-- A concrete context value used in closed evaluations. -/
def ctxW : Ctx := { user_id := "U", reply_token := some "tok" }

/-- A handler with no declared parameters beyond the implicit two that
succeeds. -/
def fWA : PyFunc :=
  { params := [pSelfParam, pCtxParam], annots := [], behavior := fun _ _ _ => .ok () }

/-- A cog defining the command `"ping"`. -/
def cogWA : Cog := { commands := [("ping", fWA)] }

/-- A second cog also defining `"ping"`. -/
def cogWB : Cog := { commands := [("ping", fWA)] }

/-- The parameter dictionary of the command string `"cmd=ping"`. -/
def dataPing : PDict := [("cmd", some "ping")]

/-- A handler declaring an integer parameter `n`. -/
def fW8 : PyFunc :=
  { params := [pSelfParam, pCtxParam, { name := "n", default := Option.none, kind := .posOrKw }],
    annots := [("n", "int")], behavior := fun _ _ _ => .ok () }

/-- A cog whose `"ping"` command declares an integer parameter. -/
def cogW8 : Cog := { commands := [("ping", fW8)] }

/-- A parameter dictionary supplying a non-numeric value for `n`. -/
def dataW8 : PDict := [("cmd", some "ping"), ("n", some "x")]

/-- A handler whose body raises. -/
def fB8 : PyFunc :=
  { params := [pSelfParam, pCtxParam], annots := [],
    behavior := fun _ _ _ => .error (.userError "boom") }

/-- A cog whose `"pong"` command raises in its body. -/
def cogB8 : Cog := { commands := [("pong", fB8)] }

/-- The parameter dictionary of the command string `"cmd=pong"`. -/
def dataPong : PDict := [("cmd", some "pong")]

/-- Decidable equality for `Except`, so that closed evaluations of the
embedded fallible functions can be checked by `decide`. -/
instance exceptDecEq {ε α : Type} [DecidableEq ε] [DecidableEq α] :
    DecidableEq (Except ε α) := fun x y =>
  match x, y with
  | .error a, .error b =>
    if h : a = b then .isTrue (by rw [h])
    else .isFalse (fun hh => by cases hh; exact h rfl)
  | .ok a, .ok b =>
    if h : a = b then .isTrue (by rw [h])
    else .isFalse (fun hh => by cases hh; exact h rfl)
  | .error _, .ok _ => .isFalse (fun hh => by cases hh)
  | .ok _, .error _ => .isFalse (fun hh => by cases hh)

/-! Helper lemmas. -/

theorem parseParams_third (p : PyParam) (data : PDict) (annots : AnnDict) :
    parseParams [pSelfParam, pCtxParam, p] data annots =
      match coerceValue p.name annots (resolveValue p data) with
      | .error e => .error e
      | .ok v =>
        if p.kind = .posOrKw ∨ p.kind = .kwOnly then .ok ([], [(p.name, v)])
        else .ok ([v], []) := by
  cases h : coerceValue p.name annots (resolveValue p data) with
  | error e => simp [parseParams, parseParamsAux, h]
  | ok v =>
    simp only [parseParams, List.drop, parseParamsAux, h]
    by_cases hk : p.kind = .posOrKw ∨ p.kind = .kwOnly
    · have hb : (p.kind = .posOrKw || p.kind = .kwOnly) = true := by
        rcases hk with hk | hk <;> simp [hk]
      simp [hb, hk, dictSet, parseParamsAux]
    · push_neg at hk
      have hb : (p.kind = .posOrKw || p.kind = .kwOnly) = false := by
        simp [hk.1, hk.2]
      simp [hb, hk.1, hk.2, parseParamsAux]

theorem pyCharIsDigit_of_ascii (c : Char) (h : isAsciiChar c = true) :
    pyCharIsDigit c = ('0' ≤ c && c ≤ '9') := by
  have h1 : c ≠ '¹' := by rintro rfl; exact absurd h (by decide)
  have h2 : c ≠ '²' := by rintro rfl; exact absurd h (by decide)
  have h3 : c ≠ '³' := by rintro rfl; exact absurd h (by decide)
  simp [pyCharIsDigit, h1, h2, h3]

theorem all_pyCharIsDigit_of_ascii (cs : List Char) (h : cs.all isAsciiChar = true) :
    cs.all pyCharIsDigit = cs.all (fun c => '0' ≤ c && c ≤ '9') := by
  induction cs with
  | nil => rfl
  | cons c cs ih =>
    simp only [List.all_cons, Bool.and_eq_true] at h
    simp only [List.all_cons, pyCharIsDigit_of_ascii c h.1, ih h.2]

theorem pyIsDigit_eq_of_ascii (s : String) (h : s.data.all isAsciiChar = true) :
    pyIsDigit s = allAsciiDigits s := by
  unfold pyIsDigit allAsciiDigits
  rw [all_pyCharIsDigit_of_ascii s.data h]

theorem digitsToNatAux_eq (cs : List Char) (h : ∀ c ∈ cs, ('0' ≤ c && c ≤ '9') = true) :
    ∀ acc, digitsToNatAux cs acc =
      some (cs.foldl (fun a c => a * 10 + (c.toNat - 48)) acc) := by
  induction cs with
  | nil => intro acc; rfl
  | cons c cs ih =>
    intro acc
    have hc := h c (by simp)
    simp only [digitsToNatAux, pyCharDecimalVal, hc, if_true, List.foldl_cons]
    exact ih (fun c' hc' => h c' (List.mem_cons_of_mem _ hc')) _

theorem pyIntParse_digits (s : String) (h : allAsciiDigits s = true) :
    pyIntParse s = .ok ((asciiDigitsToNat s : Nat) : Int) := by
  unfold allAsciiDigits at h
  simp only [Bool.and_eq_true, Bool.not_eq_true', List.isEmpty_eq_false_iff_exists_mem,
    List.all_eq_true] at h
  obtain ⟨hne, hall⟩ := h
  unfold pyIntParse asciiDigitsToNat
  cases hd : s.data with
  | nil => rw [hd] at hne; simp at hne
  | cons c rest =>
    have hc : ('0' ≤ c && c ≤ '9') = true := by
      simpa using hall c (by rw [hd]; simp)
    have hcm : c ≠ '-' := by rintro rfl; exact absurd hc (by decide)
    have hcp : c ≠ '+' := by rintro rfl; exact absurd hc (by decide)
    simp only [hcm, hcp, if_false]
    rw [digitsToNatAux_eq (c :: rest)
      (fun c' hc' => by simpa using hall c' (by rw [hd]; exact hc'))]
    simp

theorem runLoopAux_cons (c : String) (data : PDict) (ctx : Ctx) (cog : Cog)
    (rest : List Cog) (k : Nat) :
    runLoopAux c data ctx (cog :: rest) k =
      match dictGet cog.commands c with
      | Option.none => runLoopAux c data ctx rest (k + 1)
      | some f =>
        match parseParams f.params data f.annots with
        | .error e => { invs := [], err := some (.paramParseError c e) }
        | .ok (args, kwargs) =>
          match f.behavior ctx args kwargs with
          | .error e => { invs := [⟨k, c⟩], err := some (.commandExecError c e) }
          | .ok _ => { invs := [⟨k, c⟩], err := Option.none } := rfl

theorem runLoopAux_skip (c : String) (data : PDict) (ctx : Ctx) (rest : List Cog) :
    ∀ (pre : List Cog), (∀ g ∈ pre, cogDefines g c = false) →
    ∀ k, runLoopAux c data ctx (pre ++ rest) k = runLoopAux c data ctx rest (k + pre.length) := by
  intro pre
  induction pre with
  | nil => intro _ k; simp
  | cons g pre ih =>
    intro h k
    have hg : dictGet g.commands c = Option.none := by
      cases hdg : dictGet g.commands c with
      | none => rfl
      | some f =>
        have hgf := h g (by simp)
        unfold cogDefines at hgf
        rw [hdg] at hgf
        simp at hgf
    have step : runLoopAux c data ctx ((g :: pre) ++ rest) k
        = runLoopAux c data ctx (pre ++ rest) (k + 1) := by
      show runLoopAux c data ctx (g :: (pre ++ rest)) k = _
      rw [runLoopAux_cons, hg]
    rw [step, ih (fun g' hg' => h g' (List.mem_cons_of_mem _ hg')) (k + 1)]
    have harith : k + 1 + pre.length = k + (g :: pre).length := by
      simp [List.length_cons]
      omega
    rw [harith]

theorem runLoopAux_err_shape (c : String) (data : PDict) (ctx : Ctx) :
    ∀ (cogs : List Cog) (k : Nat) (e : PyErr),
      (runLoopAux c data ctx cogs k).err = some e →
      (∃ cause, e = .paramParseError c cause) ∨ (∃ cause, e = .commandExecError c cause) := by
  intro cogs
  induction cogs with
  | nil => intro k e h; simp [runLoopAux] at h
  | cons cog rest ih =>
    intro k e h
    cases hf : dictGet cog.commands c with
    | none =>
      have heq : runLoopAux c data ctx (cog :: rest) k = runLoopAux c data ctx rest (k + 1) := by
        rw [runLoopAux_cons, hf]
      rw [heq] at h
      exact ih (k + 1) e h
    | some f =>
      cases hp : parseParams f.params data f.annots with
      | error e0 =>
        have heq : runLoopAux c data ctx (cog :: rest) k
            = { invs := [], err := some (.paramParseError c e0) } := by
          simp [runLoopAux_cons, hf, hp]
        rw [heq] at h
        simp at h
        exact Or.inl ⟨e0, h.symm⟩
      | ok ak =>
        obtain ⟨a, kw⟩ := ak
        cases hb : f.behavior ctx a kw with
        | error e1 =>
          have heq : runLoopAux c data ctx (cog :: rest) k
              = { invs := [⟨k, c⟩], err := some (.commandExecError c e1) } := by
            simp [runLoopAux_cons, hf, hp, hb]
          rw [heq] at h
          simp at h
          exact Or.inr ⟨e1, h.symm⟩
        | ok u =>
          have heq : runLoopAux c data ctx (cog :: rest) k
              = { invs := [⟨k, c⟩], err := Option.none } := by
            simp [runLoopAux_cons, hf, hp, hb]
          rw [heq] at h
          simp at h

theorem runLoopAux_invs_shape (c : String) (data : PDict) (ctx : Ctx) :
    ∀ (cogs : List Cog) (k : Nat),
      (runLoopAux c data ctx cogs k).invs = [] ∨
      ∃ idx, k ≤ idx ∧ (runLoopAux c data ctx cogs k).invs = [⟨idx, c⟩] := by
  intro cogs
  induction cogs with
  | nil => intro k; left; rfl
  | cons cog rest ih =>
    intro k
    cases hf : dictGet cog.commands c with
    | none =>
      have heq : runLoopAux c data ctx (cog :: rest) k = runLoopAux c data ctx rest (k + 1) := by
        rw [runLoopAux_cons, hf]
      rw [heq]
      rcases ih (k + 1) with h | ⟨idx, hk, h⟩
      · left; exact h
      · right; exact ⟨idx, by omega, h⟩
    | some f =>
      cases hp : parseParams f.params data f.annots with
      | error e0 =>
        have heq : runLoopAux c data ctx (cog :: rest) k
            = { invs := [], err := some (.paramParseError c e0) } := by
          simp [runLoopAux_cons, hf, hp]
        rw [heq]
        left; rfl
      | ok ak =>
        obtain ⟨a, kw⟩ := ak
        cases hb : f.behavior ctx a kw with
        | error e1 =>
          have heq : runLoopAux c data ctx (cog :: rest) k
              = { invs := [⟨k, c⟩], err := some (.commandExecError c e1) } := by
            simp [runLoopAux_cons, hf, hp, hb]
          rw [heq]
          right; exact ⟨k, le_refl k, rfl⟩
        | ok u =>
          have heq : runLoopAux c data ctx (cog :: rest) k
              = { invs := [⟨k, c⟩], err := Option.none } := by
            simp [runLoopAux_cons, hf, hp, hb]
          rw [heq]
          right; exact ⟨k, le_refl k, rfl⟩

theorem processCommandRest_run (cogs : List Cog) (data : PDict) (ctx : Ctx) (c : String)
    (h : dictGet data "cmd" = some (some c)) (hne : c ≠ "") :
    processCommandRest cogs data ctx = runLoopAux c data ctx cogs 0 := by
  simp [processCommandRest, h, hne]

/-! Claim theorems. -/

/-- C1: the claim states that an event whose decoded parameter map has no
`cmd` entry is a no-op and the request yields a 200 response.  On the code as
written this fails for every event: `BaseBot.process_command` calls
`Context(...)` with the keyword arguments `group_id` and `room_id`, which
`Context.__init__` does not declare, so Python raises `TypeError` before the
`cmd` check is reached; the outer fault boundary delivers the error to
`on_error` and the request returns 500.  This theorem evaluates the embedded
code at a failing input (`"hello"`, which decodes to a map without `cmd`). -/
theorem c1_no_cmd_event_errors :
    (∀ (cogs : List Cog) (text : String) (src : Source) (tok : String),
      processCommand cogs text src tok =
        { invs := [],
          err := some (.typeError "init got an unexpected keyword argument group_id") })
    ∧ handleRequest (fun _ _ => .events [.message "hello" (some srcEx) "tok"]) []
        { headers := [("X-Line-Signature", "sig")], body := "b" }
      = { status := 500, body := "Internal server error", invs := [],
          hookErr := some (.typeError "init got an unexpected keyword argument group_id") } :=
  ⟨fun _ _ _ _ => rfl, rfl⟩

/-- C3: a request whose body fails signature verification gets the 400
response `"Invalid signature"`, no event is processed and no handler is
invoked (the invocation trace is empty and the error hook is not called),
for every parser, cog registry and request. -/
theorem c3_invalid_signature_short_circuits
    (parse : String → String → ParseOutcome) (cogs : List Cog) (req : Request) (sig : String)
    (hsig : lookupHeader req.headers "X-Line-Signature" = some sig)
    (hbad : parse req.body sig = .invalidSignature) :
    handleRequest parse cogs req =
      { status := 400, body := "Invalid signature", invs := [], hookErr := Option.none } := by
  simp [handleRequest, hsig, hbad]

/-- Witness for C3 at a concrete request. -/
theorem c3_invalid_signature_short_circuits_witness :
    handleRequest (fun _ _ => .invalidSignature) []
      { headers := [("X-Line-Signature", "s")], body := "body" } =
      { status := 400, body := "Invalid signature", invs := [], hookErr := Option.none } :=
  c3_invalid_signature_short_circuits (fun _ _ => .invalidSignature) []
    { headers := [("X-Line-Signature", "s")], body := "body" } "s" rfl rfl

/-- C10: a POST request with no `X-Line-Signature` header never produces the
400 signature response: the header lookup raises `KeyError` before the
parser runs (the result is the same for every parser, including one that
would report an invalid signature), the exception is delivered to the
`on_error` hook, the response is the 500 one, and no event is processed. -/
theorem c10_missing_header_is_500
    (parse : String → String → ParseOutcome) (cogs : List Cog) (req : Request)
    (hmiss : lookupHeader req.headers "X-Line-Signature" = Option.none) :
    handleRequest parse cogs req =
      { status := 500, body := "Internal server error", invs := [],
        hookErr := some (.keyError "X-Line-Signature") } := by
  simp [handleRequest, hmiss]

/-- Witness for C10: even with a parser that reports an invalid signature,
the missing header yields 500, not 400. -/
theorem c10_missing_header_is_500_witness :
    handleRequest (fun _ _ => .invalidSignature) [] { headers := [], body := "b" } =
      { status := 500, body := "Internal server error", invs := [],
        hookErr := some (.keyError "X-Line-Signature") } :=
  c10_missing_header_is_500 (fun _ _ => .invalidSignature) [] { headers := [], body := "b" } rfl

/-- C4 counterexample: in the legacy `Bot.add_cog` of base.py (cited by the
claim), the `CogLoadError` raised for a module with zero qualifying cog
classes is caught by the blanket `except Exception` and re-wrapped in a
second `CogLoadError` — the cause of the propagated error is itself a
`CogLoadError`, contradicting "never wrapped inside another CogLoadError". -/
theorem c4_base_double_wrap_counterexample :
    addCogBase [("m", .mod [])] "m" =
      .error (.cogLoadErrorExc "m" (.cogLoadErrorMsg "m" "No Cog subclass found"))
    ∧ (PyErr.cogLoadErrorMsg "m" "No Cog subclass found").isCogLoad = true :=
  ⟨rfl, rfl⟩

/-- C4 (amended): in `BaseBot.add_cog` (bot.py) a path resolving to zero
qualifying cog classes fails with `CogLoadError("No Cog subclass found")`
and one resolving to more than one fails with
`CogLoadError("Multiple Cog subclasses found")`; a `CogLoadError` raised
during loading propagates unwrapped while any other exception is wrapped
exactly once.  In the legacy base.py `Bot.add_cog` the zero-subclass
`CogLoadError` is instead re-wrapped in a second `CogLoadError`. -/
theorem c4_cog_load_errors :
    (∀ (env : ModuleEnv) (path : String) (classes : List (String × PyClass)),
      dictGet env path = some (.mod classes) →
      classes.filter (fun cl => cl.2.isCogSub && !cl.2.isCogBase) = [] →
      addCogBot env path = .error (.cogLoadErrorMsg path "No Cog subclass found"))
    ∧ (∀ (env : ModuleEnv) (path : String) (classes : List (String × PyClass))
        (c1 c2 : String × PyClass) (rest : List (String × PyClass)),
      dictGet env path = some (.mod classes) →
      classes.filter (fun cl => cl.2.isCogSub && !cl.2.isCogBase) = c1 :: c2 :: rest →
      addCogBot env path = .error (.cogLoadErrorMsg path "Multiple Cog subclasses found"))
    ∧ (∀ (env : ModuleEnv) (path : String) (e : PyErr),
      addCogTry env path = .error e →
      (e.isCogLoad = true → addCogBot env path = .error e) ∧
      (e.isCogLoad = false → addCogBot env path = .error (.cogLoadErrorExc path e)))
    ∧ (∀ (env : ModuleEnv) (path : String) (classes : List (String × PyClass)),
      dictGet env path = some (.mod classes) →
      classes.filter (fun cl => cl.2.isCogSub && !cl.2.isCogBase) = [] →
      addCogBase env path =
        .error (.cogLoadErrorExc path (.cogLoadErrorMsg path "No Cog subclass found"))) := by
  refine ⟨?_, ?_, ?_, ?_⟩
  · intro env path classes h hq
    simp [addCogBot, addCogTry, h, hq, PyErr.isCogLoad]
  · intro env path classes c1 c2 rest h hq
    simp [addCogBot, addCogTry, h, hq, PyErr.isCogLoad]
  · intro env path e h
    constructor
    · intro hcl
      simp [addCogBot, h, hcl]
    · intro hncl
      simp [addCogBot, h, hncl]
  · intro env path classes h hq
    simp [addCogBase, addCogTry, h, hq]

/-- Witness for C4 at concrete environments: an empty module, a module with
two cog subclasses, and an import that raises a non-CogLoadError. -/
theorem c4_cog_load_errors_witness :
    addCogBot [("m", .mod [])] "m" = .error (.cogLoadErrorMsg "m" "No Cog subclass found")
    ∧ addCogBot
        [("m", .mod [("A", ⟨1, true, false, Option.none⟩), ("B", ⟨2, true, false, Option.none⟩)])]
        "m" = .error (.cogLoadErrorMsg "m" "Multiple Cog subclasses found")
    ∧ addCogBot [("m", .failed (.userError "x"))] "m" =
        .error (.cogLoadErrorExc "m" (.userError "x"))
    ∧ addCogBase [("m", .mod [])] "m" =
        .error (.cogLoadErrorExc "m" (.cogLoadErrorMsg "m" "No Cog subclass found")) :=
  ⟨c4_cog_load_errors.1 [("m", .mod [])] "m" [] rfl rfl,
   c4_cog_load_errors.2.1
     [("m", .mod [("A", ⟨1, true, false, Option.none⟩), ("B", ⟨2, true, false, Option.none⟩)])]
     "m" [("A", ⟨1, true, false, Option.none⟩), ("B", ⟨2, true, false, Option.none⟩)]
     ("A", ⟨1, true, false, Option.none⟩) ("B", ⟨2, true, false, Option.none⟩) [] rfl rfl,
   (c4_cog_load_errors.2.2.1 [("m", .failed (.userError "x"))] "m" (.userError "x") rfl).2 rfl,
   c4_cog_load_errors.2.2.2 [("m", .mod [])] "m" [] rfl rfl⟩

/-- C7: `_parse_data` splits on `&` then on `=`: a segment with fewer than
two parts (no `=`) is dropped, a segment whose value after re-joining
embedded `=` characters is empty is dropped, a value of exactly `"None"` is
stored as a null entry; and decoding `"cmd=foo&n=None&x="` yields a map in
which `x` is absent, `n` is null and `cmd` is `"foo"`. -/
theorem c7_decode_drops_and_nulls :
    (∀ (d : PDict) (seg : String), (splitChar '=' seg).length ≤ 1 →
      processSegment d seg = d)
    ∧ (∀ (d : PDict) (seg key v0 : String) (vs : List String),
      splitChar '=' seg = key :: v0 :: vs → joinWith '=' (v0 :: vs) = "" →
      processSegment d seg = d)
    ∧ (∀ (d : PDict) (seg key v0 : String) (vs : List String),
      splitChar '=' seg = key :: v0 :: vs → joinWith '=' (v0 :: vs) = "None" →
      processSegment d seg = dictSet d key Option.none)
    ∧ (dictGet (parseData "cmd=foo&n=None&x=") "x" = Option.none
      ∧ dictGet (parseData "cmd=foo&n=None&x=") "n" = some Option.none
      ∧ dictGet (parseData "cmd=foo&n=None&x=") "cmd" = some (some "foo")) := by
  refine ⟨?_, ?_, ?_, by decide, by decide, by decide⟩
  · intro d seg hlen
    unfold processSegment
    cases hs : splitChar '=' seg with
    | nil => rfl
    | cons k rest =>
      cases rest with
      | nil => rfl
      | cons v vs =>
        rw [hs] at hlen
        simp [List.length_cons] at hlen
  · intro d seg key v0 vs hs hval
    simp [processSegment, hs, hval]
  · intro d seg key v0 vs hs hval
    simp [processSegment, hs, hval]

/-- Witness for C7 at concrete segments: `"abc"` has no `=`, `"x="` has an
empty value, `"n=None"` has the literal `None` value. -/
theorem c7_decode_drops_and_nulls_witness :
    processSegment [("k", some "v")] "abc" = [("k", some "v")]
    ∧ processSegment [] "x=" = []
    ∧ processSegment [] "n=None" = dictSet [] "n" Option.none :=
  ⟨c7_decode_drops_and_nulls.1 [("k", some "v")] "abc" (by decide),
   c7_decode_drops_and_nulls.2.1 [] "x=" "x" "" [] (by decide) rfl,
   c7_decode_drops_and_nulls.2.2.1 [] "n=None" "n" "None" [] (by decide) rfl⟩

/-- C2 counterexample: the digit pre-check of the integer coercion is Python
`str.isdigit`, not the regex `^[0-9]+$`.  The superscript `"²"` does not
match the regex, so the claim requires an `IntConvertError` naming the
parameter and value — but `"²".isdigit()` is true, so the code instead calls
`int("²")`, which raises a plain `ValueError`. -/
theorem c2_superscript_counterexample :
    parseParams [pSelfParam, pCtxParam, ⟨"n", Option.none, .posOrKw⟩]
        [("n", some "²")] [("n", "int")]
      = .error (.valueError "invalid literal for int with base 10: ²")
    ∧ parseParams [pSelfParam, pCtxParam, ⟨"n", Option.none, .posOrKw⟩]
        [("n", some "²")] [("n", "int")]
      ≠ .error (.intConvertError "n" "²")
    ∧ pyIsDigit "²" = true
    ∧ allAsciiDigits "²" = false :=
  ⟨rfl, by decide, by decide, by decide⟩

/-- C2 (amended): for a declared integer parameter and a supplied string of
ASCII characters, coercion succeeds with the equal integer exactly when the
value matches `^[0-9]+$` (non-empty, decimal ASCII digits only, no sign) and
otherwise fails with `IntConvertError` naming the parameter and value.  The
pre-check is Python `str.isdigit`, which also accepts non-ASCII digit
characters: `"²"` passes it and `int()` then raises `ValueError` rather than
`IntConvertError`. -/
theorem c2_ascii_int_coercion :
    (∀ (pname s : String), s.data.all isAsciiChar = true →
      parseParams [pSelfParam, pCtxParam, ⟨pname, Option.none, .posOrKw⟩]
          [(pname, some s)] [(pname, "int")]
        = if allAsciiDigits s then
            .ok ([], [(pname, .int ((asciiDigitsToNat s : Nat) : Int))])
          else .error (.intConvertError pname s))
    ∧ pyIsDigit "²" = true
    ∧ parseParams [pSelfParam, pCtxParam, ⟨"n", Option.none, .posOrKw⟩]
        [("n", some "²")] [("n", "int")]
      = .error (.valueError "invalid literal for int with base 10: ²") := by
  refine ⟨?_, by decide, rfl⟩
  intro pname s hascii
  rw [parseParams_third]
  have hres : resolveValue ⟨pname, Option.none, .posOrKw⟩ [(pname, some s)] = .str s := by
    simp [resolveValue, dictGet]
  rw [hres]
  have hco : coerceValue pname [(pname, "int")] (.str s)
      = if pyIsDigit s then (pyIntParse s).map PyVal.int
        else .error (.intConvertError pname s) := by
    simp [coerceValue, dictGet, getParamType]
  rw [hco, pyIsDigit_eq_of_ascii s hascii]
  by_cases hd : allAsciiDigits s = true
  · rw [if_pos hd, if_pos hd, pyIntParse_digits s hd]
    rfl
  · rw [if_neg hd, if_neg hd]

/-- Witness for C2 at the concrete values `"42"` and `"4x"`. -/
theorem c2_ascii_int_coercion_witness :
    (parseParams [pSelfParam, pCtxParam, ⟨"n", Option.none, .posOrKw⟩]
        [("n", some "42")] [("n", "int")]
      = if allAsciiDigits "42" then
          .ok ([], [("n", .int ((asciiDigitsToNat "42" : Nat) : Int))])
        else .error (.intConvertError "n" "42"))
    ∧ (parseParams [pSelfParam, pCtxParam, ⟨"n", Option.none, .posOrKw⟩]
        [("n", some "4x")] [("n", "int")]
      = if allAsciiDigits "4x" then
          .ok ([], [("n", .int ((asciiDigitsToNat "4x" : Nat) : Int))])
        else .error (.intConvertError "n" "4x")) :=
  ⟨c2_ascii_int_coercion.1 "n" "42" (by decide),
   c2_ascii_int_coercion.1 "n" "4x" (by decide)⟩

/-- C5 counterexample: a declared `int` parameter with the typed default
`5`, absent from the parameter map, does not pass through unchanged: bot.py's
`_parse_params` has no `isinstance(value, str)` guard, so the non-null
non-string value reaches `value.isdigit()` and raises `AttributeError`
(surfacing as `ParamParseError` in dispatch) instead of being passed
through without error. -/
theorem c5_typed_default_counterexample :
    parseParams [pSelfParam, pCtxParam, ⟨"n", some (.int 5), .posOrKw⟩] [] [("n", "int")]
      = .error (.attributeError "int object has no attribute isdigit") :=
  rfl

/-- C5 (amended): coercion applies only to declared parameters beyond the
two implicit leading ones, and conversion is attempted whenever the resolved
value (supplied string or declared default) is non-null — not only when it
is a string.  A `None` value is left untouched; a non-null non-string value
raises `AttributeError` when the declared type is `int` (`.isdigit`) or
`bool` (`.lower`), and passes through unchanged only when the declared type
is string-like or unrecognized. -/
theorem c5_coercion_scope :
    (∀ (p0 p1 q0 q1 : PyParam) (rest : List PyParam) (data : PDict) (annots : AnnDict),
      parseParams (p0 :: p1 :: rest) data annots = parseParams (q0 :: q1 :: rest) data annots)
    ∧ (∀ (p : PyParam) (data : PDict) (annots : AnnDict),
      resolveValue p data = .none →
      coerceValue p.name annots (resolveValue p data) = .ok .none)
    ∧ (∀ (pname : String) (annots : AnnDict) (v : PyVal),
      dictGet annots pname = some "int" → v ≠ .none → (∀ s, v ≠ .str s) →
      coerceValue pname annots v =
        .error (.attributeError (pyTypeName v ++ " object has no attribute isdigit")))
    ∧ (∀ (pname : String) (annots : AnnDict) (v : PyVal),
      dictGet annots pname = some "bool" → v ≠ .none → (∀ s, v ≠ .str s) →
      coerceValue pname annots v =
        .error (.attributeError (pyTypeName v ++ " object has no attribute lower")))
    ∧ (∀ (pname : String) (annots : AnnDict) (v : PyVal) (ann : String),
      dictGet annots pname = some ann →
      getParamType ann = .STRING ∨ getParamType ann = .UNKNOWN →
      coerceValue pname annots v = .ok v) := by
  refine ⟨?_, ?_, ?_, ?_, ?_⟩
  · intro p0 p1 q0 q1 rest data annots
    rfl
  · intro p data annots h
    rw [h]
    rfl
  · intro pname annots v hann hnn hns
    cases v with
    | none => exact absurd rfl hnn
    | str s => exact absurd rfl (hns s)
    | int n => simp [coerceValue, hann, getParamType, pyTypeName]
    | bool b => simp [coerceValue, hann, getParamType, pyTypeName]
    | float f => simp [coerceValue, hann, getParamType, pyTypeName]
  · intro pname annots v hann hnn hns
    cases v with
    | none => exact absurd rfl hnn
    | str s => exact absurd rfl (hns s)
    | int n => simp [coerceValue, hann, getParamType, pyTypeName]
    | bool b => simp [coerceValue, hann, getParamType, pyTypeName]
    | float f => simp [coerceValue, hann, getParamType, pyTypeName]
  · intro pname annots v ann hann hty
    cases v with
    | none => rfl
    | str s => rcases hty with h | h <;> simp [coerceValue, hann, h]
    | int n => rcases hty with h | h <;> simp [coerceValue, hann, h]
    | bool b => rcases hty with h | h <;> simp [coerceValue, hann, h]
    | float f => rcases hty with h | h <;> simp [coerceValue, hann, h]

/-- Witness for C5 at concrete parameters: a missing value with no default,
an `int`-typed default for an `int` parameter, a `bool` default for a `bool`
parameter, and an `int` default for a parameter with an unrecognized
annotation. -/
theorem c5_coercion_scope_witness :
    parseParams [pSelfParam, pCtxParam] [] [] = parseParams [pCtxParam, pSelfParam] [] []
    ∧ coerceValue "n" [] (resolveValue ⟨"n", Option.none, .posOrKw⟩ []) = .ok .none
    ∧ coerceValue "n" [("n", "int")] (.int 5)
      = .error (.attributeError "int object has no attribute isdigit")
    ∧ coerceValue "b" [("b", "bool")] (.bool true)
      = .error (.attributeError "bool object has no attribute lower")
    ∧ coerceValue "c" [("c", "Context")] (.int 5) = .ok (.int 5) :=
  ⟨c5_coercion_scope.1 pSelfParam pCtxParam pCtxParam pSelfParam [] [] [],
   c5_coercion_scope.2.1 ⟨"n", Option.none, .posOrKw⟩ [] [] rfl,
   c5_coercion_scope.2.2.1 "n" [("n", "int")] (.int 5) rfl (by decide) (fun s h => by cases h),
   c5_coercion_scope.2.2.2.1 "b" [("b", "bool")] (.bool true) rfl (by decide) (fun s h => by cases h),
   c5_coercion_scope.2.2.2.2 "c" [("c", "Context")] (.int 5) "Context" rfl (Or.inr rfl)⟩

/-- C9: for a declared boolean parameter, a supplied string coerces to
boolean true when it lower-cases to `"true"` (so `"true"`, `"TRUE"`,
`"True"`, any case), to boolean false when it lower-cases to `"false"`, and
any other string passes through unchanged as a string — never an error. -/
theorem c9_bool_coercion (pname s : String) :
    parseParams [pSelfParam, pCtxParam, ⟨pname, Option.none, .posOrKw⟩]
        [(pname, some s)] [(pname, "bool")]
      = .ok ([], [(pname,
          if lowerAscii s = "true" then PyVal.bool true
          else if lowerAscii s = "false" then PyVal.bool false
          else .str s)]) := by
  rw [parseParams_third]
  have hres : resolveValue ⟨pname, Option.none, .posOrKw⟩ [(pname, some s)] = .str s := by
    simp [resolveValue, dictGet]
  rw [hres]
  have hco : coerceValue pname [(pname, "bool")] (.str s)
      = .ok (if lowerAscii s = "true" then PyVal.bool true
        else if lowerAscii s = "false" then PyVal.bool false
        else .str s) := by
    by_cases h1 : lowerAscii s = "true" <;> by_cases h2 : lowerAscii s = "false" <;>
      simp [coerceValue, dictGet, getParamType, h1, h2]
  rw [hco]
  simp

/-- C6: with two registered cogs that both define the same command name,
dispatching that command always invokes the first-registered cog and never
the second, at most one handler is invoked per event, and scanning stops at
the first match (every recorded invocation carries the first match's
registration index). -/
theorem c6_first_registered_wins
    (pre mid post : List Cog) (cogA cogB : Cog) (data : PDict) (ctx : Ctx) (c : String)
    (hcmd : dictGet data "cmd" = some (some c)) (hne : c ≠ "")
    (hpre : ∀ g ∈ pre, cogDefines g c = false)
    (hA : cogDefines cogA c = true) (hB : cogDefines cogB c = true) :
    (processCommandRest (pre ++ (cogA :: (mid ++ cogB :: post))) data ctx).invs.length ≤ 1
    ∧ (∀ inv ∈ (processCommandRest (pre ++ (cogA :: (mid ++ cogB :: post))) data ctx).invs,
        inv.cogIdx = pre.length ∧ inv.cmd = c)
    ∧ (∀ inv ∈ (processCommandRest (pre ++ (cogA :: (mid ++ cogB :: post))) data ctx).invs,
        inv.cogIdx ≠ pre.length + 1 + mid.length)
    ∧ (∀ (f : PyFunc) (args : List PyVal) (kwargs : KwDict),
        dictGet cogA.commands c = some f →
        parseParams f.params data f.annots = .ok (args, kwargs) →
        (processCommandRest (pre ++ (cogA :: (mid ++ cogB :: post))) data ctx).invs
          = [⟨pre.length, c⟩]) := by
  have hrw : processCommandRest (pre ++ (cogA :: (mid ++ cogB :: post))) data ctx
      = runLoopAux c data ctx (cogA :: (mid ++ cogB :: post)) pre.length := by
    rw [processCommandRest_run _ _ _ _ hcmd hne]
    have h2 := runLoopAux_skip c data ctx (cogA :: (mid ++ cogB :: post)) pre hpre 0
    rw [Nat.zero_add] at h2
    exact h2
  unfold cogDefines at hA
  obtain ⟨fA, hfA⟩ := Option.isSome_iff_exists.mp hA
  cases hp : parseParams fA.params data fA.annots with
  | error e0 =>
    have hres : runLoopAux c data ctx (cogA :: (mid ++ cogB :: post)) pre.length
        = { invs := [], err := some (.paramParseError c e0) } := by
      simp [runLoopAux_cons, hfA, hp]
    rw [hrw, hres]
    refine ⟨by simp, by simp, by simp, ?_⟩
    intro f args kwargs hf hpp
    rw [hfA] at hf
    injection hf with hf
    rw [hf] at hp
    rw [hp] at hpp
    cases hpp
  | ok ak =>
    obtain ⟨a0, kw0⟩ := ak
    cases hb : fA.behavior ctx a0 kw0 with
    | error e1 =>
      have hres : runLoopAux c data ctx (cogA :: (mid ++ cogB :: post)) pre.length
          = { invs := [⟨pre.length, c⟩], err := some (.commandExecError c e1) } := by
        simp [runLoopAux_cons, hfA, hp, hb]
      rw [hrw, hres]
      refine ⟨by simp, ?_, ?_, fun _ _ _ _ _ => rfl⟩
      · intro inv hinv
        simp at hinv
        simp [hinv]
      · intro inv hinv
        simp at hinv
        rw [hinv]
        simp
        omega
    | ok u =>
      have hres : runLoopAux c data ctx (cogA :: (mid ++ cogB :: post)) pre.length
          = { invs := [⟨pre.length, c⟩], err := Option.none } := by
        simp [runLoopAux_cons, hfA, hp, hb]
      rw [hrw, hres]
      refine ⟨by simp, ?_, ?_, fun _ _ _ _ _ => rfl⟩
      · intro inv hinv
        simp at hinv
        simp [hinv]
      · intro inv hinv
        simp at hinv
        rw [hinv]
        simp
        omega

/-- Witness for C6 at a concrete registry of two cogs both defining
`"ping"`. -/
theorem c6_first_registered_wins_witness :
    (processCommandRest [cogWA, cogWB] dataPing ctxW).invs.length ≤ 1
    ∧ (∀ inv ∈ (processCommandRest [cogWA, cogWB] dataPing ctxW).invs,
        inv.cogIdx = 0 ∧ inv.cmd = "ping")
    ∧ (∀ inv ∈ (processCommandRest [cogWA, cogWB] dataPing ctxW).invs, inv.cogIdx ≠ 1)
    ∧ (∀ (f : PyFunc) (args : List PyVal) (kwargs : KwDict),
        dictGet cogWA.commands "ping" = some f →
        parseParams f.params dataPing f.annots = .ok (args, kwargs) →
        (processCommandRest [cogWA, cogWB] dataPing ctxW).invs = [⟨0, "ping"⟩]) :=
  c6_first_registered_wins [] [] [] cogWA cogWB dataPing ctxW "ping"
    rfl (by decide) (by simp) rfl rfl

/-- C8: every exception escaping the dispatch loop is either a
`ParamParseError` or a `CommandExecError` naming the dispatched command (in
particular `IntConvertError`/`FloatConvertError` never escape unwrapped);
an exception inside parameter coercion at the first matching cog becomes
exactly one `ParamParseError` carrying the command name and the original
cause, and an exception from the handler body becomes a `CommandExecError`
carrying the command name and the original cause. -/
theorem c8_exception_wrapping :
    (∀ (cogs : List Cog) (data : PDict) (ctx : Ctx) (c : String) (e : PyErr),
      dictGet data "cmd" = some (some c) →
      (processCommandRest cogs data ctx).err = some e →
      (∃ cause, e = .paramParseError c cause) ∨ (∃ cause, e = .commandExecError c cause))
    ∧ (∀ (pre post : List Cog) (cog : Cog) (data : PDict) (ctx : Ctx) (c : String) (f : PyFunc),
      dictGet data "cmd" = some (some c) → c ≠ "" →
      (∀ g ∈ pre, cogDefines g c = false) →
      dictGet cog.commands c = some f →
      (∀ e0, parseParams f.params data f.annots = .error e0 →
        (processCommandRest (pre ++ cog :: post) data ctx).err
          = some (.paramParseError c e0))
      ∧ (∀ (args : List PyVal) (kwargs : KwDict) (e1 : PyErr),
        parseParams f.params data f.annots = .ok (args, kwargs) →
        f.behavior ctx args kwargs = .error e1 →
        (processCommandRest (pre ++ cog :: post) data ctx).err
          = some (.commandExecError c e1))) := by
  constructor
  · intro cogs data ctx c e hcmd herr
    by_cases hne : c = ""
    · subst hne
      simp [processCommandRest, hcmd] at herr
    · rw [processCommandRest_run cogs data ctx c hcmd hne] at herr
      exact runLoopAux_err_shape c data ctx cogs 0 e herr
  · intro pre post cog data ctx c f hcmd hne hpre hf
    have hrw : processCommandRest (pre ++ cog :: post) data ctx
        = runLoopAux c data ctx (cog :: post) pre.length := by
      rw [processCommandRest_run _ _ _ _ hcmd hne]
      have h2 := runLoopAux_skip c data ctx (cog :: post) pre hpre 0
      rw [Nat.zero_add] at h2
      exact h2
    constructor
    · intro e0 hp
      rw [hrw]
      simp [runLoopAux_cons, hf, hp]
    · intro args kwargs e1 hp hb
      rw [hrw]
      simp [runLoopAux_cons, hf, hp, hb]

/-- Witness for C8: a coercion failure (`n="x"` for an `int` parameter)
surfaces as one `ParamParseError` wrapping the `IntConvertError`, and a
raising handler body surfaces as a `CommandExecError` wrapping the original
exception. -/
theorem c8_exception_wrapping_witness :
    ((∃ cause, PyErr.paramParseError "ping" (.intConvertError "n" "x")
        = .paramParseError "ping" cause)
      ∨ (∃ cause, PyErr.paramParseError "ping" (.intConvertError "n" "x")
        = .commandExecError "ping" cause))
    ∧ (processCommandRest [cogW8] dataW8 ctxW).err
      = some (.paramParseError "ping" (.intConvertError "n" "x"))
    ∧ (processCommandRest [cogB8] dataPong ctxW).err
      = some (.commandExecError "pong" (.userError "boom")) :=
  ⟨c8_exception_wrapping.1 [cogW8] dataW8 ctxW "ping"
      (.paramParseError "ping" (.intConvertError "n" "x")) rfl rfl,
   (c8_exception_wrapping.2 [] [] cogW8 dataW8 ctxW "ping" fW8
      rfl (by decide) (by simp) rfl).1 (.intConvertError "n" "x") rfl,
   (c8_exception_wrapping.2 [] [] cogB8 dataPong ctxW "pong" fB8
      rfl (by decide) (by simp) rfl).2 [] [] (.userError "boom") rfl rfl⟩

end LinePy
